import Mathlib

/-!
Verification development for the Agent-Orch client state-synchronization core.

The definitions below are a shallow embedding of the TypeScript source:

* `src/agent-ui/src/services/api.ts` — the `AgentOrchestrationAPI` service
  object (WebSocket session management, position allocator & cache,
  API/UI data conversions);
* the `useAgentOrchestration` hook — the event reducer
  (`handleWebSocketMessage`) and the optimistic mutation coordinator
  (`createConnection`, `deleteConnection`, `deleteAgent`).

Inbound WebSocket payloads are untyped (`data: any` in the source), so the
embedded payload types use `Option` fields: `none` models an absent
(`undefined`) field.  A JavaScript field access that throws (reading a
property of `undefined`) is modelled with `Except Unit`; the reducer's
`try`/`catch` wrapper maps the error case back to the unchanged input state.
-/

/-! ## Data model -/

/-- A layout coordinate pair, as stored in the position cache. -/
structure Pos where
  x : Int
  y : Int
deriving DecidableEq, Repr

/-- Runtime shape of the `config` object of an inbound `ApiAgent` payload.
`none` fields model absent (`undefined`) properties. -/
structure ConfigJson where
  name : Option String := none
  model : Option String := none
  prompt : Option String := none
deriving DecidableEq, Repr

/-- Runtime shape of an inbound `ApiAgent` payload (api.ts `ApiAgent`
interface, read defensively: every field may be absent at runtime since the
WebSocket data is `any`). -/
structure ApiAgent where
  id : Option String := none
  config : Option ConfigJson := none
  status : Option String := none
  url : Option String := none
  error_message : Option String := none
deriving DecidableEq, Repr

/-- Runtime shape of an inbound `ApiConnection` payload. -/
structure ApiConnection where
  id : Option String := none
  from_agent : Option String := none
  to_agent : Option String := none
  from_handle : Option String := none
  to_handle : Option String := none
deriving DecidableEq, Repr

/-- UI agent (types/index.ts `Agent`).  Fields that the conversion can leave
`undefined` at runtime (when the inbound payload was incomplete) are
`Option`s; `x`/`y` always receive numbers from the position allocator. -/
structure Agent where
  id : Option String
  x : Int
  y : Int
  width : Int
  height : Int
  label : Option String
  selected : Bool
  model : Option String
  prompt : String
  status : Option String
  url : Option String
  error : Option String
deriving DecidableEq, Repr

/-- UI connection (types/index.ts `Connection`). -/
structure Connection where
  id : Option String
  fromAgent : Option String
  toAgent : Option String
  fromHandle : Option String
  toHandle : Option String
deriving DecidableEq, Repr

/-- Canonical client state (`AgentOrchestrationState` in the hook). -/
structure OrchState where
  agents : List Agent
  connections : List Connection
  loading : Bool
  error : Option String
  connected : Bool
deriving DecidableEq, Repr

/-- An inbound WebSocket message as seen by the reducer: the `type`
discriminator plus every payload field any reducer case reads.  All fields
may be absent (`none`). -/
structure WsMsg where
  type : Option String := none
  agents : Option (List ApiAgent) := none
  connections : Option (List ApiConnection) := none
  agent : Option ApiAgent := none
  agent_id : Option String := none
  connection : Option ApiConnection := none
  connection_id : Option String := none
  error : Option String := none
deriving DecidableEq, Repr

/-- JavaScript `a || d` on a possibly-absent string: an absent or empty
(falsy) string yields the default. -/
def jsOr (a : Option String) (d : String) : String :=
  match a with
  | some s => if s = "" then d else s
  | none => d

/-! ## Position allocator & cache (api.ts 388–458)

The browser `localStorage` is modelled as an association list from full key
to parsed value; `none` as a value models an entry whose stored string does
not parse/validate as `{x : number, y : number}` (the source treats those as
absent). -/

def LocalStorage : Type := List (String × Option Pos)

instance : DecidableEq LocalStorage := by
  unfold LocalStorage
  infer_instance

/-- `getStoredPosition` (api.ts 388–402): look up `agent_position_<id>`;
invalid or missing entries give `none`.  An absent agent id interpolates as
the string `"undefined"`, as the template literal does. -/
def getStoredPosition (store : LocalStorage) (agentId : Option String) : Option Pos :=
  match store.lookup ("agent_position_" ++ agentId.getD "undefined") with
  | some (some p) => some p
  | _ => none

/-- `storeAgentPosition` (api.ts 404–410): synchronous write of the
position record. -/
def storeAgentPosition (store : LocalStorage) (agentId : String) (x y : Int) : LocalStorage :=
  ("agent_position_" ++ agentId, some (Pos.mk x y)) ::
    store.filter (fun kv => kv.1 != "agent_position_" ++ agentId)

/-- `key.startsWith('agent_position_')` (api.ts 445), phrased on the
character lists so that it evaluates by kernel reduction. -/
def keyHasPositionMark (k : String) : Bool :=
  List.isPrefixOf "agent_position_".data k.data

/-- `getAllStoredPositions` (api.ts 440–458): every valid position stored
under an `agent_position_` key. -/
def getAllStoredPositions (store : LocalStorage) : List Pos :=
  store.filterMap (fun kv =>
    if keyHasPositionMark kv.1 then kv.2 else none)

/-- The row-major 10×10 grid of candidate cells scanned by
`generateDefaultPosition` (api.ts 417–431): `x = col*200 + 100`,
`y = row*200 + 100`. -/
def gridCandidates : List Pos :=
  (List.range 10).flatMap (fun row =>
    (List.range 10).map (fun col => Pos.mk (col * 200 + 100) (row * 200 + 100)))

/-- The occupancy test of api.ts 423–425: a candidate is occupied when some
existing stored position is within 50 units in **both** axes. -/
def isOccupied (existing : List Pos) (p : Pos) : Bool :=
  existing.any (fun pos => (pos.x - p.x).natAbs < 50 && (pos.y - p.y).natAbs < 50)

/-- `generateDefaultPosition` (api.ts 412–438): first unoccupied grid cell
in row-major order; `none` models the pseudo-random fallback taken when the
whole grid is occupied. -/
def generateDefaultPosition (store : LocalStorage) : Option Pos :=
  gridCandidates.find? (fun p => !isOccupied (getAllStoredPositions store) p)

/-- The position used by `apiAgentToUIAgent` (api.ts 462–463): the stored
record if present, otherwise the generated default; `randomFallback` stands
for the bounded pseudo-random position drawn when the grid is exhausted. -/
def positionFor (store : LocalStorage) (randomFallback : Pos) (agentId : Option String) : Pos :=
  match getStoredPosition store agentId with
  | some p => p
  | none => (generateDefaultPosition store).getD randomFallback

/-! ## API → UI conversions (api.ts 461–500) -/

/-- `apiAgentToUIAgent` (api.ts 461–479).  Reading `apiAgent.config.name`
throws when `config` is absent — modelled by the `Except.error` case; all
other absent fields flow through as `undefined` values. -/
def apiAgentToUIAgent (store : LocalStorage) (randomFallback : Pos) (apiAgent : ApiAgent) :
    Except Unit Agent :=
  let position := positionFor store randomFallback apiAgent.id
  match apiAgent.config with
  | none => .error ()
  | some config =>
    .ok { id := apiAgent.id
          x := position.x
          y := position.y
          width := 120
          height := 80
          label := config.name
          selected := false
          model := config.model
          prompt := jsOr config.prompt ""
          status := apiAgent.status
          url := apiAgent.url
          error := apiAgent.error_message }

/-- `apiConnectionToUIConnection` (api.ts 481–489): pure field renaming,
never throws once the connection object itself exists. -/
def apiConnectionToUIConnection (apiConnection : ApiConnection) : Connection :=
  { id := apiConnection.id
    fromAgent := apiConnection.from_agent
    fromHandle := apiConnection.from_handle
    toAgent := apiConnection.to_agent
    toHandle := apiConnection.to_handle }

/-- JavaScript `Array.prototype.map` under a `try`: the first callback that
throws aborts the whole map. -/
def mapEx (f : α → Except Unit β) : List α → Except Unit (List β)
  | [] => .ok []
  | a :: as =>
    match f a with
    | .error e => .error e
    | .ok b =>
      match mapEx f as with
      | .error e => .error e
      | .ok bs => .ok (b :: bs)

/-! ## Event reducer (hook `handleWebSocketMessage`, part_000 57–157) -/

/-- The body of the inner `try` of `handleWebSocketMessage`: the `switch` on
`data.type`.  `Except.error` marks the paths on which the JavaScript body
throws (caught by the surrounding `catch`). -/
def applyEvent (store : LocalStorage) (randomFallback : Pos)
    (currentState : OrchState) (data : WsMsg) : Except Unit OrchState :=
  if data.type = some "initial_state" then
    match mapEx (apiAgentToUIAgent store randomFallback) (data.agents.getD []) with
    | .error e => .error e
    | .ok initialAgents =>
      .ok { currentState with
              agents := initialAgents
              connections := (data.connections.getD []).map apiConnectionToUIConnection
              loading := false
              connected := true }
  else if data.type = some "agent_updated" then
    match data.agent with
    | none => .error ()
    | some apiAgent =>
      match mapEx (fun agent =>
          if agent.id = apiAgent.id then
            match apiAgentToUIAgent store randomFallback apiAgent with
            | .error e => .error e
            | .ok updatedAgent =>
              .ok { updatedAgent with
                      x := agent.x
                      y := agent.y
                      selected := agent.selected }
          else .ok agent) currentState.agents with
      | .error e => .error e
      | .ok newAgents => .ok { currentState with agents := newAgents }
  else if data.type = some "agent_deleted" then
    .ok { currentState with
            agents := currentState.agents.filter (fun agent => agent.id != data.agent_id)
            connections := currentState.connections.filter (fun conn =>
              conn.fromAgent != data.agent_id && conn.toAgent != data.agent_id) }
  else if data.type = some "connection_added" then
    match data.connection with
    | none => .error ()
    | some apiConnection =>
      .ok { currentState with
              connections := currentState.connections ++
                [apiConnectionToUIConnection apiConnection] }
  else if data.type = some "connection_removed" then
    .ok { currentState with
            connections := currentState.connections.filter (fun conn =>
              conn.id != data.connection_id) }
  else if data.type = some "connection_failed" then
    .ok { currentState with
            connected := false
            error := some "Connection to orchestration layer failed" }
  else if data.type = some "connection_error" then
    .ok { currentState with
            connected := false
            error := some ("WebSocket error: " ++ jsOr data.error "Connection failed") }
  else if data.type = some "connection_established" then
    .ok { currentState with connected := true, error := none }
  else
    .ok currentState

/-- `handleWebSocketMessage` (part_000 57–157): the reducer with its
`try`/`catch` wrappers — any fault during dispatch yields the input state
unchanged. -/
def handleWebSocketMessage (store : LocalStorage) (randomFallback : Pos)
    (currentState : OrchState) (data : WsMsg) : OrchState :=
  match applyEvent store randomFallback currentState data with
  | .ok nextState => nextState
  | .error _ => currentState

/-! ## Optimistic mutation coordinator (hook, part_000 265–350)

A coordinator call is modelled as a function of the canonical state, with
the round-trip outcome (`serverOk`) as a parameter: `true` models a
resolved request, `false` models the request rejecting, in which case the
service object throws the `Error` it constructs in api.ts.  The result
records the state after the call settles, whether an HTTP request was
issued, whether the call re-threw, and the value the async function
returned (the hook's `createConnection` always returns `undefined`). -/

structure CoordResult where
  connections : List Connection
  error : Option String
  requestIssued : Bool
  threw : Bool
  returned : Option Connection
deriving DecidableEq, Repr

/-- The duplicate pre-check predicate of `createConnection`
(part_000 267–272). -/
def sameFourTuple (conn : Connection) (fromAgent toAgent fromHandle toHandle : String) : Bool :=
  conn.fromAgent == some fromAgent &&
  conn.toAgent == some toAgent &&
  conn.fromHandle == some fromHandle &&
  conn.toHandle == some toHandle

/-- `createConnection` of the hook (part_000 265–320), run to completion
from state `s`.  `tempConnectionId` stands for the generated
`temp-<Date.now()>-<Math.random()>` string.  On a rejected round-trip the
service throws `Error('Failed to create connection')` (api.ts 318), the
optimistic entry is removed, the error surfaced, and the error re-thrown;
on success the optimistic entry is likewise removed (the stream is trusted
to deliver the durable record). -/
def createConnection (s : OrchState) (fromAgent toAgent fromHandle toHandle : String)
    (tempConnectionId : String) (serverOk : Bool) : CoordResult :=
  match s.connections.find? (fun conn => sameFourTuple conn fromAgent toAgent fromHandle toHandle) with
  | some _existing =>
    -- `return;` (part_000 276): the early exit returns `undefined`.
    { connections := s.connections
      error := s.error
      requestIssued := false
      threw := false
      returned := none }
  | none =>
    let optimisticConnection : Connection :=
      { id := some tempConnectionId
        fromAgent := some fromAgent
        toAgent := some toAgent
        fromHandle := some fromHandle
        toHandle := some toHandle }
    let afterOptimistic := s.connections ++ [optimisticConnection]
    if serverOk then
      { connections := afterOptimistic.filter (fun conn => conn.id != some tempConnectionId)
        error := s.error
        requestIssued := true
        threw := false
        returned := none }
    else
      { connections := afterOptimistic.filter (fun conn => conn.id != some tempConnectionId)
        error := some "Failed to create connection"
        requestIssued := true
        threw := true
        returned := none }

/-- `deleteConnection` of the hook (part_000 322–350): capture the record,
optimistically remove it, and on a rejected round-trip (the service throws
`Error('Failed to delete connection')`, api.ts 338) re-append the captured
record and surface the error. -/
def deleteConnection (s : OrchState) (connectionId : String) (serverOk : Bool) : CoordResult :=
  match s.connections.find? (fun conn => conn.id == some connectionId) with
  | none =>
    { connections := s.connections
      error := s.error
      requestIssued := false
      threw := false
      returned := none }
  | some connectionToDelete =>
    let removed := s.connections.filter (fun conn => conn.id != some connectionId)
    if serverOk then
      { connections := removed
        error := s.error
        requestIssued := true
        threw := false
        returned := none }
    else
      { connections := removed ++ [connectionToDelete]
        error := some "Failed to delete connection"
        requestIssued := true
        threw := true
        returned := none }

/-- `deleteAgent` of the hook (part_000 195–212).  After the server confirms,
the code runs `setAgentPositions(prev => { delete newPos[agentId]; ... })`.
No `setAgentPositions` is defined anywhere in the repository; it is modelled
here *generously* as a setter for an in-memory id → position map
(`uiPositions`), which is the most it could be (a React state setter cannot
touch `localStorage`).  The durable store is threaded unchanged: no code
path in the repository removes an `agent_position_<id>` record
(`localStorage.removeItem` never occurs).  The result is
(durable store, in-memory map, error field, threw). -/
def deleteAgent (store : LocalStorage) (uiPositions : List (String × Pos))
    (agentId : String) (serverOk : Bool) :
    LocalStorage × List (String × Pos) × Option String × Bool :=
  if serverOk then
    (store, uiPositions.filter (fun kv => kv.1 != agentId), none, false)
  else
    (store, uiPositions, some ("Failed to delete agent " ++ agentId), true)

/-! ## Connection Manager session (api.ts 49–198)

The session fields of `AgentOrchestrationAPI`.  Pending timers are
modelled by `Option` fields: `some` is a scheduled timer that will fire
unless cleared, `none` means no timer is pending.  Callbacks are identified
by naturals; `ws` records whether a transport object is held. -/

structure WsSession where
  reconnectAttempts : Nat
  maxReconnectAttempts : Nat
  reconnectTimeout : Option Nat
  isReconnecting : Bool
  connectionCleanup : Bool
  heartbeatInterval : Option Nat
  wsCallbacks : List Nat
  ws : Bool
deriving DecidableEq, Repr

/-- The synthetic event fanned out on open (api.ts 105–108); its `status`
field is not read by the reducer and is not modelled. -/
def connectionEstablishedMsg : WsMsg :=
  { type := some "connection_established" }

/-- Modelled from the spec: `startHeartbeat` is called at api.ts 102 but its
definition is absent from the sources; per §4.1 "a liveness heartbeat is
scheduled on a fixed interval (abstract keepalive probe)", it schedules the
heartbeat timer on the fixed interval `heartbeatIntervalMs`. -/
def heartbeatIntervalMs : Nat := 30000

/-- Modelled from the spec: schedules the liveness heartbeat on the fixed
interval (the `startHeartbeat` body is absent from the sources; only its
call site api.ts 102 and the `heartbeatInterval` field api.ts 57 appear). -/
def startHeartbeat (s : WsSession) : WsSession :=
  { s with heartbeatInterval := some heartbeatIntervalMs }

/-- The `ws.onopen` handler (api.ts 96–109): reset the attempt counter,
clear the reconnecting flag, start the heartbeat, and fan the synthetic
`connection_established` event out to every registered callback.  Returns
the new session and the (callback, event) deliveries made. -/
def wsOnOpen (s : WsSession) : WsSession × List (Nat × WsMsg) :=
  let s1 := startHeartbeat { s with reconnectAttempts := 0, isReconnecting := false }
  (s1, s1.wsCallbacks.map (fun cb => (cb, connectionEstablishedMsg)))

/-- `disconnectWebSocket` (api.ts 168–185): clear any pending reconnect
timer, close the transport with code 1000 if one is held, drop all
callbacks, reset the counters and flags.  The second component is the close
code passed to `ws.close`, when a transport was held.  Note the
`heartbeatInterval` field is not touched by this function in the source. -/
def disconnectWebSocket (s : WsSession) : WsSession × Option Nat :=
  ({ s with reconnectTimeout := none
            ws := false
            wsCallbacks := []
            reconnectAttempts := 0
            isReconnecting := false
            connectionCleanup := false },
   if s.ws then some 1000 else none)

/-- `removeWebSocketCallback` (api.ts 188–198): deregister the callback;
if none remain, perform deliberate teardown. -/
def removeWebSocketCallback (s : WsSession) (callback : Nat) : WsSession × Option Nat :=
  let s1 := { s with wsCallbacks := s.wsCallbacks.filter (fun cb => cb != callback) }
  if s1.wsCallbacks.length = 0 then disconnectWebSocket s1 else (s1, none)

/-! ## Event/state fixtures used in concrete theorems -/

/-- Message carrying a server `agent_deleted` event. -/
def agentDeletedMsg (agentId : String) : WsMsg :=
  { type := some "agent_deleted", agent_id := some agentId }

/-- Message carrying a server `agent_updated` event. -/
def agentUpdatedMsg (apiAgent : ApiAgent) : WsMsg :=
  { type := some "agent_updated", agent := some apiAgent }

/-- Message carrying a server `connection_added` event. -/
def connectionAddedMsg (apiConnection : ApiConnection) : WsMsg :=
  { type := some "connection_added", connection := some apiConnection }

/-- Four-tuple agreement between two UI connections (the defining fields of
the duplicate invariant of spec §3). -/
def sameTupleAs (c d : Connection) : Bool :=
  c.fromAgent == d.fromAgent && c.toAgent == d.toAgent &&
  c.fromHandle == d.fromHandle && c.toHandle == d.toHandle

/-- The sequential double-`createConnection` scenario: a first call that the
server confirms, the stream's authoritative `connection_added` event, then a
second call with the same four-tuple. -/
def createConnectionTwice (store : LocalStorage) (randomFallback : Pos) (s : OrchState)
    (fromAgent toAgent fromHandle toHandle tempId1 tempId2 : String)
    (apiConnection : ApiConnection) (serverOk2 : Bool) : CoordResult :=
  let r1 := createConnection s fromAgent toAgent fromHandle toHandle tempId1 true
  let s1 : OrchState := { s with connections := r1.connections }
  let s2 := handleWebSocketMessage store randomFallback s1 (connectionAddedMsg apiConnection)
  createConnection s2 fromAgent toAgent fromHandle toHandle tempId2 serverOk2

/-! ## Helper lemmas -/

theorem mapEx_ok_of_forall {f : α → Except Unit β} {g : α → β} :
    ∀ {l : List α}, (∀ a ∈ l, f a = .ok (g a)) → mapEx f l = .ok (l.map g)
  | [], _ => rfl
  | a :: as, h => by
    have ha := h a (List.mem_cons_self a as)
    have hrest := mapEx_ok_of_forall (f := f) (g := g) (l := as)
      (fun b hb => h b (List.mem_cons_of_mem a hb))
    simp [mapEx, ha, hrest]

theorem mapEx_error_of_mem {f : α → Except Unit β} :
    ∀ {l : List α} {a : α}, a ∈ l → f a = .error () → mapEx f l = .error ()
  | b :: bs, a, h, ha => by
    rcases List.mem_cons.mp h with rfl | hmem
    · simp [mapEx, ha]
    · cases hb : f b with
      | error e => cases e; simp [mapEx, hb]
      | ok v =>
        have := mapEx_error_of_mem (f := f) hmem ha
        simp [mapEx, hb, this]

theorem find?_eq_some_of_filter_singleton {p : α → Bool} :
    ∀ {l : List α} {c : α}, l.filter p = [c] → l.find? p = some c
  | [], c, h => by simp at h
  | a :: as, c, h => by
    by_cases hp : p a
    · rw [List.filter_cons_of_pos hp] at h
      have : a = c := by simpa using congrArg (·.head?) h
      rw [List.find?_cons_of_pos _ hp, this]
    · rw [List.filter_cons_of_neg hp] at h
      rw [List.find?_cons_of_neg _ hp]
      exact find?_eq_some_of_filter_singleton h

theorem find?_append_of_none {p : α → Bool} :
    ∀ {l₁ l₂ : List α}, l₁.find? p = none → (l₁ ++ l₂).find? p = l₂.find? p
  | [], _, _ => rfl
  | a :: as, l₂, h => by
    have hp : p a = false := by
      by_contra hcon
      rw [List.find?_cons_of_pos _ (by simpa using hcon)] at h
      exact Option.noConfusion h
    rw [List.find?_cons_of_neg _ (by simp [hp])] at h
    rw [List.cons_append, List.find?_cons_of_neg _ (by simp [hp])]
    exact find?_append_of_none h

/-! ## C1 — behaviour of the `onopen` handler -/

/-- C1: on every successful stream open, the connection manager resets the
reconnect attempt counter to 0, schedules the liveness heartbeat on the
fixed interval, and fans the synthetic `connection_established` event out to
every registered observer (the heartbeat scheduling itself is modelled from
the spec, since `startHeartbeat`'s body is absent from the sources). -/
theorem c1_onopen_resets_schedules_and_fans_out (s : WsSession) :
    (wsOnOpen s).1.reconnectAttempts = 0 ∧
    (wsOnOpen s).1.heartbeatInterval = some heartbeatIntervalMs ∧
    (wsOnOpen s).2 = s.wsCallbacks.map (fun cb => (cb, connectionEstablishedMsg)) ∧
    (∀ cb ∈ s.wsCallbacks, (cb, connectionEstablishedMsg) ∈ (wsOnOpen s).2) := by
  refine ⟨rfl, rfl, rfl, ?_⟩
  intro cb hcb
  simp only [wsOnOpen, startHeartbeat, List.mem_map]
  exact ⟨cb, hcb, rfl⟩

/-! ## C6 — cascade delete in the reducer -/

/-- C6: applying an `agent_deleted` event with agent id `X` removes exactly
the agents whose id is `X` and exactly the connections with `X` as source or
target, leaving every other agent/connection (and the remaining state
fields) unchanged. -/
theorem c6_agent_deleted_cascades (store : LocalStorage) (fb : Pos)
    (s : OrchState) (X : String) :
    (handleWebSocketMessage store fb s (agentDeletedMsg X)).agents =
      s.agents.filter (fun agent => agent.id != some X) ∧
    (handleWebSocketMessage store fb s (agentDeletedMsg X)).connections =
      s.connections.filter (fun conn =>
        conn.fromAgent != some X && conn.toAgent != some X) ∧
    (∀ a, a ∈ (handleWebSocketMessage store fb s (agentDeletedMsg X)).agents ↔
      (a ∈ s.agents ∧ a.id ≠ some X)) ∧
    (∀ c, c ∈ (handleWebSocketMessage store fb s (agentDeletedMsg X)).connections ↔
      (c ∈ s.connections ∧ c.fromAgent ≠ some X ∧ c.toAgent ≠ some X)) ∧
    (handleWebSocketMessage store fb s (agentDeletedMsg X)).agents.Sublist s.agents ∧
    (handleWebSocketMessage store fb s (agentDeletedMsg X)).connections.Sublist s.connections ∧
    (handleWebSocketMessage store fb s (agentDeletedMsg X)).loading = s.loading ∧
    (handleWebSocketMessage store fb s (agentDeletedMsg X)).error = s.error ∧
    (handleWebSocketMessage store fb s (agentDeletedMsg X)).connected = s.connected := by
  have hred : handleWebSocketMessage store fb s (agentDeletedMsg X) =
      { s with
          agents := s.agents.filter (fun agent => agent.id != some X)
          connections := s.connections.filter (fun conn =>
            conn.fromAgent != some X && conn.toAgent != some X) } := by
    simp [handleWebSocketMessage, applyEvent, agentDeletedMsg]
  rw [hred]
  refine ⟨rfl, rfl, ?_, ?_, List.filter_sublist _, List.filter_sublist _, rfl, rfl, rfl⟩
  · intro a
    simp [List.mem_filter]
  · intro c
    simp [List.mem_filter]

/-! ## C2 — `connection_added` does not de-duplicate -/

def connC2 : Connection :=
  { id := some "c1", fromAgent := some "a", toAgent := some "b",
    fromHandle := some "right", toHandle := some "left" }

def stateC2 : OrchState :=
  { agents := [], connections := [connC2], loading := false, error := none, connected := true }

def apiConnC2 : ApiConnection :=
  { id := some "c2", from_agent := some "a", to_agent := some "b",
    from_handle := some "right", to_handle := some "left" }

/-- C2 counterexample: the state already holds a relation with the same
(source, source handle, target, target handle) four-tuple as the incoming
`connection_added` payload, yet the reducer does not return the relation
list unchanged — it appends a duplicate. -/
theorem c2_counterexample :
    (∃ conn ∈ stateC2.connections,
      sameTupleAs conn (apiConnectionToUIConnection apiConnC2) = true) ∧
    (handleWebSocketMessage [] ⟨0, 0⟩ stateC2 (connectionAddedMsg apiConnC2)).connections ≠
      stateC2.connections ∧
    (handleWebSocketMessage [] ⟨0, 0⟩ stateC2 (connectionAddedMsg apiConnC2)).connections =
      [connC2, apiConnectionToUIConnection apiConnC2] := by
  decide

/-- C2 (amended): the reducer appends the incoming relation
unconditionally — there is no four-tuple de-duplication at reducer level
(that check exists only at mutation time, in `createConnection`) — so when a
relation with the same four-tuple already exists the state ends up holding
at least two relations with that four-tuple. -/
theorem c2_amended_append_is_unconditional (store : LocalStorage) (fb : Pos)
    (s : OrchState) (cj : ApiConnection)
    (hdup : ∃ conn ∈ s.connections,
      sameTupleAs conn (apiConnectionToUIConnection cj) = true) :
    (handleWebSocketMessage store fb s (connectionAddedMsg cj)).connections =
      s.connections ++ [apiConnectionToUIConnection cj] ∧
    2 ≤ ((handleWebSocketMessage store fb s (connectionAddedMsg cj)).connections.filter
      (fun conn => sameTupleAs conn (apiConnectionToUIConnection cj))).length := by
  have hred : (handleWebSocketMessage store fb s (connectionAddedMsg cj)).connections =
      s.connections ++ [apiConnectionToUIConnection cj] := by
    simp [handleWebSocketMessage, applyEvent, connectionAddedMsg]
  refine ⟨hred, ?_⟩
  rw [hred, List.filter_append]
  obtain ⟨c, hc, hcp⟩ := hdup
  have h1 : 1 ≤ (s.connections.filter
      (fun conn => sameTupleAs conn (apiConnectionToUIConnection cj))).length := by
    have : c ∈ s.connections.filter
        (fun conn => sameTupleAs conn (apiConnectionToUIConnection cj)) :=
      List.mem_filter.mpr ⟨hc, hcp⟩
    exact List.length_pos.mpr (List.ne_nil_of_mem this)
  have h2 : ([apiConnectionToUIConnection cj].filter
      (fun conn => sameTupleAs conn (apiConnectionToUIConnection cj))).length = 1 := by
    simp [sameTupleAs]
  rw [List.length_append, h2]
  omega

/-- C2 amended, witnessed at the concrete duplicate state. -/
theorem c2_amended_witness :
    (handleWebSocketMessage [] ⟨0, 0⟩ stateC2 (connectionAddedMsg apiConnC2)).connections =
      stateC2.connections ++ [apiConnectionToUIConnection apiConnC2] ∧
    2 ≤ ((handleWebSocketMessage [] ⟨0, 0⟩ stateC2
        (connectionAddedMsg apiConnC2)).connections.filter
      (fun conn => sameTupleAs conn (apiConnectionToUIConnection apiConnC2))).length :=
  c2_amended_append_is_unconditional [] ⟨0, 0⟩ stateC2 apiConnC2 (by decide)

/-! ## C3 — totality and fault behaviour of the reducer -/

/-- The event types the reducer's `switch` recognizes. -/
def recognizedTypes : List String :=
  ["initial_state", "agent_updated", "agent_deleted", "connection_added",
   "connection_removed", "connection_failed", "connection_error",
   "connection_established"]

def stateC3 : OrchState :=
  { agents := [], connections := [], loading := false, error := none, connected := true }

/-- A `connection_added` event whose payload is malformed (an empty
connection object: every defining field absent). -/
def msgC3 : WsMsg := { type := some "connection_added", connection := some {} }

/-- C3 counterexample: a `connection_added` event with a malformed payload
(an empty connection object) does not leave the state unchanged — the
reducer appends a degenerate relation, because a field-less object does not
make any of the accessed reads throw. -/
theorem c3_counterexample :
    msgC3.connection = some { id := none, from_agent := none, to_agent := none,
                              from_handle := none, to_handle := none } ∧
    handleWebSocketMessage [] ⟨0, 0⟩ stateC3 msgC3 ≠ stateC3 := by
  decide

/-- C3 (amended): the reducer is total and never propagates an exception
(the `catch` converts every dispatch fault into the unchanged input state);
events with an unrecognized (or absent) `type` return the state unchanged;
and a malformed payload returns the state unchanged exactly when its
processing faults — an absent `agent` object on `agent_updated`, an absent
`connection` object on `connection_added`, or an agent payload without a
`config` object that the conversion must read.  (Structurally incomplete
payloads that do not fault are applied as-is.) -/
theorem c3_amended_total_and_fault_safe :
    (∀ (store : LocalStorage) (fb : Pos) (s : OrchState) (m : WsMsg),
      (∀ t ∈ recognizedTypes, m.type ≠ some t) →
      handleWebSocketMessage store fb s m = s) ∧
    (∀ (store : LocalStorage) (fb : Pos) (s : OrchState) (m : WsMsg),
      applyEvent store fb s m = .error () →
      handleWebSocketMessage store fb s m = s) ∧
    (∀ (store : LocalStorage) (fb : Pos) (s : OrchState) (m : WsMsg),
      m.type = some "agent_updated" → m.agent = none →
      handleWebSocketMessage store fb s m = s) ∧
    (∀ (store : LocalStorage) (fb : Pos) (s : OrchState) (m : WsMsg),
      m.type = some "connection_added" → m.connection = none →
      handleWebSocketMessage store fb s m = s) ∧
    (∀ (store : LocalStorage) (fb : Pos) (s : OrchState) (m : WsMsg)
        (l : List ApiAgent) (a : ApiAgent),
      m.type = some "initial_state" → m.agents = some l →
      a ∈ l → a.config = none →
      handleWebSocketMessage store fb s m = s) ∧
    (∀ (store : LocalStorage) (fb : Pos) (s : OrchState) (m : WsMsg)
        (aj : ApiAgent) (ag : Agent),
      m.type = some "agent_updated" → m.agent = some aj →
      aj.config = none → ag ∈ s.agents → ag.id = aj.id →
      handleWebSocketMessage store fb s m = s) := by
  refine ⟨?_, ?_, ?_, ?_, ?_, ?_⟩
  · intro store fb s m h
    have h1 := h "initial_state" (by simp [recognizedTypes])
    have h2 := h "agent_updated" (by simp [recognizedTypes])
    have h3 := h "agent_deleted" (by simp [recognizedTypes])
    have h4 := h "connection_added" (by simp [recognizedTypes])
    have h5 := h "connection_removed" (by simp [recognizedTypes])
    have h6 := h "connection_failed" (by simp [recognizedTypes])
    have h7 := h "connection_error" (by simp [recognizedTypes])
    have h8 := h "connection_established" (by simp [recognizedTypes])
    simp [handleWebSocketMessage, applyEvent, h1, h2, h3, h4, h5, h6, h7, h8]
  · intro store fb s m h
    simp [handleWebSocketMessage, h]
  · intro store fb s m hty hagent
    simp [handleWebSocketMessage, applyEvent, hty, hagent]
  · intro store fb s m hty hconn
    simp [handleWebSocketMessage, applyEvent, hty, hconn]
  · intro store fb s m l a hty hl ha hconfig
    have herr : mapEx (apiAgentToUIAgent store fb) (m.agents.getD []) = .error () := by
      rw [hl]
      exact mapEx_error_of_mem ha (by simp [apiAgentToUIAgent, hconfig])
    simp [handleWebSocketMessage, applyEvent, hty, herr]
  · intro store fb s m aj ag hty hagent hconfig hag hagid
    have herr : mapEx (fun agent =>
        if agent.id = aj.id then
          match apiAgentToUIAgent store fb aj with
          | .error e => .error e
          | .ok updatedAgent =>
            .ok { updatedAgent with
                    x := agent.x
                    y := agent.y
                    selected := agent.selected }
        else .ok agent) s.agents = .error () := by
      apply mapEx_error_of_mem hag
      simp [hagid, apiAgentToUIAgent, hconfig]
    simp [handleWebSocketMessage, applyEvent, hty, hagent, herr]

/-- C3 amended, witnessed: an unknown-type event and a faulting
`agent_updated` event (payload absent) both leave a concrete state
unchanged. -/
theorem c3_amended_witness :
    handleWebSocketMessage [] ⟨0, 0⟩ stateC3 { type := some "totally_new_kind" } = stateC3 ∧
    handleWebSocketMessage [] ⟨0, 0⟩ stateC3 { type := some "agent_updated" } = stateC3 :=
  ⟨c3_amended_total_and_fault_safe.1 [] ⟨0, 0⟩ stateC3 _ (by decide),
   c3_amended_total_and_fault_safe.2.2.1 [] ⟨0, 0⟩ stateC3 _ rfl rfl⟩

/-! ## Coordinator lemmas shared by C4 and C5 -/

theorem createConnection_find?_none {s : OrchState} {fa ta fh th : String}
    (hno : ∀ conn ∈ s.connections, sameFourTuple conn fa ta fh th = false) :
    s.connections.find? (fun conn => sameFourTuple conn fa ta fh th) = none :=
  List.find?_eq_none.mpr (fun c hc => by simp [hno c hc])

/-- With no pre-existing relation on the four-tuple and a fresh temporary
id, a settled `createConnection` call (confirmed or failed) leaves the
relation list exactly as it was: the optimistic placeholder is appended and
then removed by its temporary id. -/
theorem createConnection_fresh_connections (s : OrchState) (fa ta fh th tmp : String)
    (serverOk : Bool)
    (hno : ∀ conn ∈ s.connections, sameFourTuple conn fa ta fh th = false)
    (hfresh : ∀ conn ∈ s.connections, conn.id ≠ some tmp) :
    (createConnection s fa ta fh th tmp serverOk).connections = s.connections := by
  have hfind := createConnection_find?_none hno
  have hself : s.connections.filter (fun conn => conn.id != some tmp) = s.connections :=
    List.filter_eq_self.mpr (fun c hc => by
      simp only [bne_iff_ne, ne_eq]
      exact hfresh c hc)
  cases serverOk <;>
    simp [createConnection, hfind, List.filter_append, hself]

/-! ## C5 — rollback restores the relation list -/

/-- C5: if a relation-creation round-trip fails, the optimistic placeholder
is removed by its temporary id, restoring exactly the prior relation list;
if a relation-deletion round-trip fails, the captured record is reinserted,
restoring the prior relation list up to order (the record re-enters at the
end, so the lists are observationally equal as multisets); in both cases
the error field is set to a non-empty message. -/
theorem c5_rollback_restores_relations :
    (∀ (s : OrchState) (fa ta fh th tmp : String),
      (∀ conn ∈ s.connections, sameFourTuple conn fa ta fh th = false) →
      (∀ conn ∈ s.connections, conn.id ≠ some tmp) →
      (createConnection s fa ta fh th tmp false).connections = s.connections ∧
      (createConnection s fa ta fh th tmp false).error =
        some "Failed to create connection" ∧
      "Failed to create connection" ≠ "") ∧
    (∀ (s : OrchState) (cid : String) (c : Connection),
      s.connections.filter (fun conn => conn.id == some cid) = [c] →
      (deleteConnection s cid false).connections.Perm s.connections ∧
      (deleteConnection s cid false).error = some "Failed to delete connection" ∧
      "Failed to delete connection" ≠ "") := by
  constructor
  · intro s fa ta fh th tmp hno hfresh
    refine ⟨createConnection_fresh_connections s fa ta fh th tmp false hno hfresh, ?_, by decide⟩
    have hfind := createConnection_find?_none hno
    simp [createConnection, hfind]
  · intro s cid c hu
    have hfind := find?_eq_some_of_filter_singleton hu
    have hconns : (deleteConnection s cid false).connections =
        s.connections.filter (fun conn => conn.id != some cid) ++ [c] := by
      simp [deleteConnection, hfind]
    refine ⟨?_, by simp [deleteConnection, hfind], by decide⟩
    rw [hconns]
    have hperm := List.filter_append_perm
      (fun conn : Connection => conn.id == some cid) s.connections
    rw [hu] at hperm
    have hfun : (fun conn : Connection => conn.id != some cid) =
        (fun conn : Connection => !(conn.id == some cid)) := rfl
    have hcomm : (s.connections.filter (fun conn => conn.id != some cid) ++ [c]).Perm
        ([c] ++ s.connections.filter (fun conn => conn.id != some cid)) :=
      List.perm_append_comm
    refine hcomm.trans ?_
    rw [hfun]
    exact hperm

def connC5 : Connection :=
  { id := some "c5", fromAgent := some "p", toAgent := some "q",
    fromHandle := some "bottom", toHandle := some "top" }

def stateC5 : OrchState :=
  { agents := [], connections := [connC5], loading := false, error := none, connected := true }

/-- C5, witnessed: a failed creation on a fresh tuple restores the concrete
relation list, and a failed deletion of `c5` restores it up to order. -/
theorem c5_rollback_witness :
    (createConnection stateC5 "x" "y" "right" "left" "temp-9" false).connections =
      stateC5.connections ∧
    (createConnection stateC5 "x" "y" "right" "left" "temp-9" false).error =
      some "Failed to create connection" ∧
    (deleteConnection stateC5 "c5" false).connections.Perm stateC5.connections ∧
    (deleteConnection stateC5 "c5" false).error = some "Failed to delete connection" :=
  ⟨(c5_rollback_restores_relations.1 stateC5 "x" "y" "right" "left" "temp-9"
      (by decide) (by decide)).1,
   (c5_rollback_restores_relations.1 stateC5 "x" "y" "right" "left" "temp-9"
      (by decide) (by decide)).2.1,
   (c5_rollback_restores_relations.2 stateC5 "c5" connC5 (by decide)).1,
   (c5_rollback_restores_relations.2 stateC5 "c5" connC5 (by decide)).2.1⟩

/-! ## C4 — duplicate pre-check in `createConnection` -/

def connC4 : Connection :=
  { id := some "c9", fromAgent := some "a", toAgent := some "b",
    fromHandle := some "right", toHandle := some "left" }

def stateC4 : OrchState :=
  { agents := [], connections := [connC4], loading := false, error := none, connected := true }

/-- C4 counterexample: with a relation on the (a, b, right, left) four-tuple
already in canonical state, `createConnection` with that four-tuple issues
no request and changes nothing — but it does **not** return the existing
record: the early `return;` yields no value. -/
theorem c4_counterexample :
    stateC4.connections = [connC4] ∧
    sameFourTuple connC4 "a" "b" "right" "left" = true ∧
    (createConnection stateC4 "a" "b" "right" "left" "temp-1" true).requestIssued = false ∧
    (createConnection stateC4 "a" "b" "right" "left" "temp-1" true).connections =
      stateC4.connections ∧
    (createConnection stateC4 "a" "b" "right" "left" "temp-1" true).returned = none ∧
    (createConnection stateC4 "a" "b" "right" "left" "temp-1" true).returned ≠
      some connC4 := by
  decide

/-- C4 (amended): calling `createConnection` with a four-tuple for which a
relation already exists in canonical state is a no-op that issues no request
and returns no value (`undefined`, not the existing record); and issuing the
same `createConnection` twice in sequence — with the stream's authoritative
`connection_added` event applied between the calls — leaves exactly one
relation with that four-tuple in canonical state, the second call issuing no
request. -/
theorem c4_amended_precheck_and_sequence :
    (∀ (s : OrchState) (fa ta fh th tmp : String) (serverOk : Bool),
      (∃ conn ∈ s.connections, sameFourTuple conn fa ta fh th = true) →
      (createConnection s fa ta fh th tmp serverOk).connections = s.connections ∧
      (createConnection s fa ta fh th tmp serverOk).requestIssued = false ∧
      (createConnection s fa ta fh th tmp serverOk).error = s.error ∧
      (createConnection s fa ta fh th tmp serverOk).returned = none) ∧
    (∀ (store : LocalStorage) (fb : Pos) (s : OrchState)
        (fa ta fh th t1 t2 : String) (cj : ApiConnection) (serverOk2 : Bool),
      (∀ conn ∈ s.connections, sameFourTuple conn fa ta fh th = false) →
      (∀ conn ∈ s.connections, conn.id ≠ some t1) →
      cj.from_agent = some fa → cj.to_agent = some ta →
      cj.from_handle = some fh → cj.to_handle = some th →
      (createConnectionTwice store fb s fa ta fh th t1 t2 cj serverOk2).requestIssued =
        false ∧
      (createConnectionTwice store fb s fa ta fh th t1 t2 cj serverOk2).connections =
        s.connections ++ [apiConnectionToUIConnection cj] ∧
      ((createConnectionTwice store fb s fa ta fh th t1 t2 cj
          serverOk2).connections.filter
        (fun conn => sameFourTuple conn fa ta fh th)).length = 1) := by
  constructor
  · intro s fa ta fh th tmp serverOk hdup
    obtain ⟨c, hc, hp⟩ := hdup
    have hne : s.connections.find? (fun conn => sameFourTuple conn fa ta fh th) ≠ none := by
      intro hnone
      exact absurd hp (by simpa using List.find?_eq_none.mp hnone c hc)
    obtain ⟨c', hc'⟩ := Option.ne_none_iff_exists'.mp hne
    simp [createConnection, hc']
  · intro store fb s fa ta fh th t1 t2 cj serverOk2 hno hfresh hfa hta hfh hth
    have hr1 := createConnection_fresh_connections s fa ta fh th t1 true hno hfresh
    have hzeta : createConnectionTwice store fb s fa ta fh th t1 t2 cj serverOk2 =
        createConnection (handleWebSocketMessage store fb
          { s with connections := (createConnection s fa ta fh th t1 true).connections }
          (connectionAddedMsg cj)) fa ta fh th t2 serverOk2 := rfl
    rw [hzeta, hr1]
    have hs2c : (handleWebSocketMessage store fb { s with connections := s.connections }
        (connectionAddedMsg cj)).connections =
        s.connections ++ [apiConnectionToUIConnection cj] := by
      simp [handleWebSocketMessage, applyEvent, connectionAddedMsg]
    have htuple : sameFourTuple (apiConnectionToUIConnection cj) fa ta fh th = true := by
      simp [sameFourTuple, apiConnectionToUIConnection, hfa, hta, hfh, hth]
    have hfind2 : (handleWebSocketMessage store fb { s with connections := s.connections }
        (connectionAddedMsg cj)).connections.find?
          (fun conn => sameFourTuple conn fa ta fh th) =
        some (apiConnectionToUIConnection cj) := by
      rw [hs2c, find?_append_of_none (createConnection_find?_none hno)]
      simp [List.find?_cons, htuple]
    have hstep : createConnection (handleWebSocketMessage store fb
        { s with connections := s.connections } (connectionAddedMsg cj))
        fa ta fh th t2 serverOk2 =
        { connections := (handleWebSocketMessage store fb
            { s with connections := s.connections } (connectionAddedMsg cj)).connections
          error := (handleWebSocketMessage store fb
            { s with connections := s.connections } (connectionAddedMsg cj)).error
          requestIssued := false
          threw := false
          returned := none } := by
      simp [createConnection, hfind2]
    rw [hstep]
    refine ⟨rfl, hs2c, ?_⟩
    rw [hs2c, List.filter_append]
    have hnil : s.connections.filter (fun conn => sameFourTuple conn fa ta fh th) = [] :=
      List.filter_eq_nil_iff.mpr (fun c hc => by simp [hno c hc])
    simp [hnil, htuple]

def stateC4b : OrchState :=
  { agents := [], connections := [], loading := false, error := none, connected := true }

def apiConnC4 : ApiConnection :=
  { id := some "real-1", from_agent := some "a", to_agent := some "b",
    from_handle := some "right", to_handle := some "left" }

/-- C4 amended, witnessed: the pre-check no-op at a concrete duplicate
state, and the concrete two-call sequence ending with exactly one relation
on the four-tuple. -/
theorem c4_amended_witness :
    (createConnection stateC4 "a" "b" "right" "left" "temp-2" true).connections =
      stateC4.connections ∧
    (createConnection stateC4 "a" "b" "right" "left" "temp-2" true).requestIssued = false ∧
    (createConnectionTwice [] ⟨0, 0⟩ stateC4b "a" "b" "right" "left" "temp-1" "temp-2"
      apiConnC4 true).requestIssued = false ∧
    ((createConnectionTwice [] ⟨0, 0⟩ stateC4b "a" "b" "right" "left" "temp-1" "temp-2"
        apiConnC4 true).connections.filter
      (fun conn => sameFourTuple conn "a" "b" "right" "left")).length = 1 :=
  ⟨(c4_amended_precheck_and_sequence.1 stateC4 "a" "b" "right" "left" "temp-2" true
      ⟨connC4, by decide, by decide⟩).1,
   (c4_amended_precheck_and_sequence.1 stateC4 "a" "b" "right" "left" "temp-2" true
      ⟨connC4, by decide, by decide⟩).2.1,
   (c4_amended_precheck_and_sequence.2 [] ⟨0, 0⟩ stateC4b "a" "b" "right" "left"
      "temp-1" "temp-2" apiConnC4 true (by decide) (by decide) rfl rfl rfl rfl).1,
   (c4_amended_precheck_and_sequence.2 [] ⟨0, 0⟩ stateC4b "a" "b" "right" "left"
      "temp-1" "temp-2" apiConnC4 true (by decide) (by decide) rfl rfl rfl rfl).2.2⟩

/-! ## C7 — `agent_updated` merges server fields and preserves UI fields -/

/-- C7: an `agent_updated` event whose payload carries a `config` object
merges the server-authoritative fields (model, prompt, status, url, error)
into every agent whose id matches the payload, while that agent's `x`, `y`
and `selected` keep their values from the prior state; agents with a
different id — and the connection list — are unchanged. -/
theorem c7_agent_updated_preserves_ui_fields (store : LocalStorage) (fb : Pos)
    (s : OrchState) (aj : ApiAgent) (cfg : ConfigJson) (hc : aj.config = some cfg) :
    (handleWebSocketMessage store fb s (agentUpdatedMsg aj)).connections = s.connections ∧
    (handleWebSocketMessage store fb s (agentUpdatedMsg aj)).agents.length =
      s.agents.length ∧
    ∀ (i : Nat) (hi : i < s.agents.length)
      (hr : i < (handleWebSocketMessage store fb s (agentUpdatedMsg aj)).agents.length),
      (s.agents[i].id = aj.id →
        ((handleWebSocketMessage store fb s (agentUpdatedMsg aj)).agents[i].x =
            s.agents[i].x ∧
         (handleWebSocketMessage store fb s (agentUpdatedMsg aj)).agents[i].y =
            s.agents[i].y ∧
         (handleWebSocketMessage store fb s (agentUpdatedMsg aj)).agents[i].selected =
            s.agents[i].selected ∧
         (handleWebSocketMessage store fb s (agentUpdatedMsg aj)).agents[i].model =
            cfg.model ∧
         (handleWebSocketMessage store fb s (agentUpdatedMsg aj)).agents[i].prompt =
            jsOr cfg.prompt "" ∧
         (handleWebSocketMessage store fb s (agentUpdatedMsg aj)).agents[i].status =
            aj.status ∧
         (handleWebSocketMessage store fb s (agentUpdatedMsg aj)).agents[i].url =
            aj.url ∧
         (handleWebSocketMessage store fb s (agentUpdatedMsg aj)).agents[i].error =
            aj.error_message)) ∧
      (s.agents[i].id ≠ aj.id →
        (handleWebSocketMessage store fb s (agentUpdatedMsg aj)).agents[i] =
          s.agents[i]) := by
  have hok : mapEx (fun agent =>
      if agent.id = aj.id then
        match apiAgentToUIAgent store fb aj with
        | .error e => .error e
        | .ok updatedAgent =>
          .ok { updatedAgent with
                  x := agent.x
                  y := agent.y
                  selected := agent.selected }
      else .ok agent) s.agents =
      .ok (s.agents.map (fun agent =>
        if agent.id = aj.id then
          { id := aj.id
            x := agent.x
            y := agent.y
            width := 120
            height := 80
            label := cfg.name
            selected := agent.selected
            model := cfg.model
            prompt := jsOr cfg.prompt ""
            status := aj.status
            url := aj.url
            error := aj.error_message }
        else agent)) := by
    apply mapEx_ok_of_forall
    intro a _
    by_cases hid : a.id = aj.id
    · simp [hid, apiAgentToUIAgent, hc]
    · simp [hid]
  have hred : handleWebSocketMessage store fb s (agentUpdatedMsg aj) =
      { s with agents := s.agents.map (fun agent =>
          if agent.id = aj.id then
            { id := aj.id
              x := agent.x
              y := agent.y
              width := 120
              height := 80
              label := cfg.name
              selected := agent.selected
              model := cfg.model
              prompt := jsOr cfg.prompt ""
              status := aj.status
              url := aj.url
              error := aj.error_message }
          else agent) } := by
    simp [handleWebSocketMessage, applyEvent, agentUpdatedMsg, hok]
  rw [hred]
  refine ⟨rfl, by simp, ?_⟩
  intro i hi hr
  constructor
  · intro hid
    simp [List.getElem_map, hid]
  · intro hid
    simp [List.getElem_map, hid]

def cfgC7 : ConfigJson :=
  { name := some "B", model := some "gpt-4o", prompt := some "new prompt" }

def ajC7 : ApiAgent :=
  { id := some "a1", config := some cfgC7, status := some "running",
    url := some "http://localhost:9001", error_message := none }

def agentC7 : Agent :=
  { id := some "a1", x := 7, y := 8, width := 120, height := 80, label := some "A",
    selected := true, model := some "gpt-4", prompt := "old", status := some "stopped",
    url := none, error := none }

def agentC7b : Agent :=
  { id := some "a2", x := 1, y := 2, width := 120, height := 80, label := some "C",
    selected := false, model := some "m", prompt := "", status := none,
    url := none, error := none }

def stateC7 : OrchState :=
  { agents := [agentC7, agentC7b], connections := [], loading := false,
    error := none, connected := true }

/-- C7, witnessed: updating `a1` keeps its dragged position and selection
while leaving the unrelated agent `a2` untouched. -/
theorem c7_agent_updated_witness :
    (handleWebSocketMessage [] ⟨0, 0⟩ stateC7 (agentUpdatedMsg ajC7)).agents.length =
      stateC7.agents.length ∧
    ((handleWebSocketMessage [] ⟨0, 0⟩ stateC7 (agentUpdatedMsg ajC7)).agents.get
        ⟨0, by decide⟩).x = (stateC7.agents.get ⟨0, by decide⟩).x ∧
    (handleWebSocketMessage [] ⟨0, 0⟩ stateC7 (agentUpdatedMsg ajC7)).agents.get
        ⟨1, by decide⟩ = stateC7.agents.get ⟨1, by decide⟩ :=
  ⟨(c7_agent_updated_preserves_ui_fields [] ⟨0, 0⟩ stateC7 ajC7 cfgC7 rfl).2.1,
   (((c7_agent_updated_preserves_ui_fields [] ⟨0, 0⟩ stateC7 ajC7 cfgC7 rfl).2.2
      0 (by decide) (by decide)).1 (by decide)).1,
   ((c7_agent_updated_preserves_ui_fields [] ⟨0, 0⟩ stateC7 ajC7 cfgC7 rfl).2.2
      1 (by decide) (by decide)).2 (by decide)⟩

/-! ## C8 — deliberate teardown -/

def sessionC8 : WsSession :=
  { reconnectAttempts := 2, maxReconnectAttempts := 5, reconnectTimeout := some 12000,
    isReconnecting := false, connectionCleanup := false,
    heartbeatInterval := some heartbeatIntervalMs, wsCallbacks := [7], ws := true }

/-- C8 counterexample: removing the last observer performs teardown —
callbacks cleared, reconnect timer cancelled, transport closed with code
1000 — yet the heartbeat timer is **not** cancelled: `disconnectWebSocket`
never touches `heartbeatInterval`, so the scheduled heartbeat would still
fire after teardown. -/
theorem c8_counterexample :
    (removeWebSocketCallback sessionC8 7).1.wsCallbacks = [] ∧
    (removeWebSocketCallback sessionC8 7).1.reconnectTimeout = none ∧
    (removeWebSocketCallback sessionC8 7).2 = some 1000 ∧
    (removeWebSocketCallback sessionC8 7).1.heartbeatInterval = some heartbeatIntervalMs ∧
    (removeWebSocketCallback sessionC8 7).1.heartbeatInterval ≠ none := by
  decide

/-- C8 (amended): deliberate teardown — whether by explicit
`disconnectWebSocket` or by removing the last observer — cancels any pending
reconnect timer (so it cannot fire afterwards), closes the transport with
normal-closure code 1000 when one is held, clears all observers, and resets
the attempt counter; the heartbeat timer, however, is left untouched by
teardown. -/
theorem c8_amended_teardown :
    (∀ s : WsSession,
      (disconnectWebSocket s).1.reconnectTimeout = none ∧
      (disconnectWebSocket s).1.wsCallbacks = [] ∧
      (disconnectWebSocket s).1.reconnectAttempts = 0 ∧
      (s.ws = true → (disconnectWebSocket s).2 = some 1000) ∧
      (disconnectWebSocket s).1.heartbeatInterval = s.heartbeatInterval) ∧
    (∀ (s : WsSession) (callback : Nat),
      (s.wsCallbacks.filter (fun cb => cb != callback)).length = 0 →
      (removeWebSocketCallback s callback).1.reconnectTimeout = none ∧
      (removeWebSocketCallback s callback).1.wsCallbacks = [] ∧
      (removeWebSocketCallback s callback).1.reconnectAttempts = 0 ∧
      (s.ws = true → (removeWebSocketCallback s callback).2 = some 1000) ∧
      (removeWebSocketCallback s callback).1.heartbeatInterval = s.heartbeatInterval) := by
  constructor
  · intro s
    refine ⟨rfl, rfl, rfl, ?_, rfl⟩
    intro hws
    simp [disconnectWebSocket, hws]
  · intro s callback hlast
    simp only [removeWebSocketCallback, hlast]
    refine ⟨rfl, rfl, rfl, ?_, rfl⟩
    intro hws
    simp [disconnectWebSocket, hws]

/-- C8 amended, witnessed at a session holding a pending reconnect timer, a
scheduled heartbeat, an open transport, and a single observer. -/
theorem c8_amended_witness :
    (disconnectWebSocket sessionC8).1.reconnectTimeout = none ∧
    (disconnectWebSocket sessionC8).2 = some 1000 ∧
    (disconnectWebSocket sessionC8).1.heartbeatInterval = sessionC8.heartbeatInterval ∧
    (removeWebSocketCallback sessionC8 7).1.wsCallbacks = [] ∧
    (removeWebSocketCallback sessionC8 7).1.heartbeatInterval =
      sessionC8.heartbeatInterval :=
  ⟨(c8_amended_teardown.1 sessionC8).1,
   (c8_amended_teardown.1 sessionC8).2.2.2.1 rfl,
   (c8_amended_teardown.1 sessionC8).2.2.2.2,
   (c8_amended_teardown.2 sessionC8 7 (by decide)).2.1,
   (c8_amended_teardown.2 sessionC8 7 (by decide)).2.2.2.2⟩

/-! ## C9 — separation of default positions -/

def ajC9a : ApiAgent :=
  { id := some "a1", config := some cfgC7, status := some "running" }

def ajC9b : ApiAgent :=
  { id := some "a2", config := some cfgC7, status := some "stopped" }

def msgC9 : WsMsg :=
  { type := some "initial_state", agents := some [ajC9a, ajC9b] }

def stateC9 : OrchState :=
  { agents := [], connections := [], loading := true, error := none, connected := false }

/-- C9 counterexample: two entities allocated default positions in the same
session (one `initial_state` application over an empty position store),
neither with a prior stored position, both receive the **same** position
(100, 100) — allocated defaults are never persisted, so the grid scan sees
the same stored set both times.  The per-axis distance is 0 < 50 in both
axes. -/
theorem c9_counterexample :
    getStoredPosition [] ajC9a.id = none ∧
    getStoredPosition [] ajC9b.id = none ∧
    (handleWebSocketMessage [] ⟨999, 999⟩ stateC9 msgC9).agents.map
      (fun a => (a.x, a.y)) = [(100, 100), (100, 100)] ∧
    ((100 : Int) - 100).natAbs < 50 := by
  decide

/-- C9 (amended): the separation guarantee holds only against *persisted*
positions, and only in at least one axis: whenever the allocator returns a
grid cell (rather than the random fallback), that cell differs from every
valid stored position by at least 50 units in the x axis or in the y axis.
Two defaults allocated in the same session are not separated from each
other, since allocated defaults are not persisted. -/
theorem c9_amended_grid_separation (store : LocalStorage) (p : Pos)
    (h : generateDefaultPosition store = some p) :
    ∀ q ∈ getAllStoredPositions store,
      50 ≤ (q.x - p.x).natAbs ∨ 50 ≤ (q.y - p.y).natAbs := by
  intro q hq
  have hfound := List.find?_some h
  simp only [Bool.not_eq_true', isOccupied, List.any_eq_false] at hfound
  have hq2 := hfound q hq
  simp only [Bool.and_eq_true, decide_eq_true_eq, not_and] at hq2
  omega

def storeC9 : LocalStorage := [("agent_position_a", some ⟨100, 100⟩)]

/-- C9 amended, witnessed: with one persisted position at (100, 100), the
allocator yields (300, 100), which is 200 ≥ 50 away in the x axis. -/
theorem c9_amended_witness :
    50 ≤ ((100 : Int) - 300).natAbs ∨ 50 ≤ ((100 : Int) - 100).natAbs :=
  c9_amended_grid_separation storeC9 ⟨300, 100⟩ (by decide) ⟨100, 100⟩ (by decide)

/-! ## C10 — position record on explicit entity deletion -/

def storeC10 : LocalStorage := [("agent_position_a1", some ⟨100, 100⟩)]

/-- C10: evaluating `deleteAgent` at the failing input — agent `a1` with a
persisted position record, server confirming the deletion.  Even under the
generous model of the undefined `setAgentPositions` (an in-memory map
setter), the durable store still holds `agent_position_a1` afterwards: no
code path in the repository removes a persisted position record. -/
theorem c10_delete_agent_keeps_durable_record :
    deleteAgent storeC10 [("a1", ⟨100, 100⟩)] "a1" true =
      (storeC10, [], none, false) ∧
    storeC10.lookup "agent_position_a1" = some (some ⟨100, 100⟩) := by
  decide
